import Mathlib

/-!
Verification of the climate-dashboard pipeline in src/app.py.

The script is a linear pipeline: load a table, filter it with sidebar
bounds, expose a CSV export of the filtered view, and dispatch on an
analysis mode to render charts.  The table is embedded as a list of
rows; the pandas float columns are modelled as rationals, which is
faithful for the order comparisons, means and sums the script performs.
Pandas groupby sorts group keys; key order is irrelevant to every
property below, and groups are modelled in first-appearance order.
-/

namespace Climate

/-- One row of the climate table loaded by `load_data` (src/app.py lines
14-18); the seven columns follow spec section 3.  Float columns are
modelled as rationals. -/
structure Row where
  Year : Int
  Country : String
  Avg_Temperature_degC : ℚ
  CO2_Emissions_tons_per_capita : ℚ
  Renewable_Energy_pct : ℚ
  Extreme_Weather_Events : Int
  Population : Int
deriving DecidableEq

/-- The sentinel entry prepended to the country multiselect
(src/app.py line 43). -/
def allCountries : String := "All Countries"

/-- Column-name constants, as they appear in src/app.py. -/
def colYear : String := "Year"

def colCountry : String := "Country"

def colTemp : String := "Avg_Temperature_degC"

def colCO2 : String := "CO2_Emissions_tons_per_capita"

def colRenew : String := "Renewable_Energy_pct"

def colEvents : String := "Extreme_Weather_Events"

def colPop : String := "Population"

/-- The sidebar filter state: the year, temperature, CO2 and renewable
range sliders and the country multiselect (src/app.py lines 29-77). -/
structure Filters where
  year_lo : Int
  year_hi : Int
  temp_lo : ℚ
  temp_hi : ℚ
  co2_lo : ℚ
  co2_hi : ℚ
  renew_lo : ℚ
  renew_hi : ℚ
  country_select : List String
deriving DecidableEq

/-- The conjunction of the four boolean range masks of src/app.py lines
84-91 (both slider bounds are inclusive). -/
def rangePass (f : Filters) (r : Row) : Bool :=
  decide (f.year_lo ≤ r.Year) && decide (r.Year ≤ f.year_hi)
    && decide (f.temp_lo ≤ r.Avg_Temperature_degC)
    && decide (r.Avg_Temperature_degC ≤ f.temp_hi)
    && decide (f.co2_lo ≤ r.CO2_Emissions_tons_per_capita)
    && decide (r.CO2_Emissions_tons_per_capita ≤ f.co2_hi)
    && decide (f.renew_lo ≤ r.Renewable_Energy_pct)
    && decide (r.Renewable_Energy_pct ≤ f.renew_hi)

/-- src/app.py lines 83-96: the boolean-mask selection on the four
ranges, followed by the country `isin` selection, which is applied only
when the sentinel is absent from the multiselect. -/
def filtered_df (df : List Row) (f : Filters) : List Row :=
  let ranged := df.filter (rangePass f)
  if allCountries ∈ f.country_select then ranged
  else ranged.filter (fun r => decide (r.Country ∈ f.country_select))

/-- The pandas column mean: sum of the values divided by their count. -/
def listMean (l : List ℚ) : ℚ := l.sum / l.length

/-- Distinct years of the view, in first-appearance order
(`groupby('Year')` group keys). -/
def yearsOf (rows : List Row) : List Int := (rows.map Row.Year).dedup

/-- Distinct countries of the view, in first-appearance order
(`groupby('Country')` group keys). -/
def countriesOf (rows : List Row) : List String := (rows.map Row.Country).dedup

/-- The aggregation dictionary of `show_trend_panels` (src/app.py lines
164-169): the four columns whose per-year mean is taken.  `Population`
is not among them. -/
def aggColumns : List (String × (Row → ℚ)) :=
  [(colTemp, Row.Avg_Temperature_degC),
   (colCO2, Row.CO2_Emissions_tons_per_capita),
   (colRenew, Row.Renewable_Energy_pct),
   (colEvents, fun r => (r.Extreme_Weather_Events : ℚ))]

/-- `yearly` of `show_trend_panels` (src/app.py lines 164-169): for each
year group, the mean of each column of the aggregation dictionary. -/
def yearly (rows : List Row) : List (Int × List (String × ℚ)) :=
  (yearsOf rows).map (fun y =>
    (y, aggColumns.map (fun c =>
      (c.1, listMean ((rows.filter (fun r => decide (r.Year = y))).map c.2)))))

/-- `treemap_data` of `show_treemap` (src/app.py lines 144-150): per
country, the means of CO2, temperature, extreme events and population. -/
def treemap_data (rows : List Row) : List (String × ℚ × ℚ × ℚ × ℚ) :=
  (countriesOf rows).map (fun c =>
    let g := rows.filter (fun r => decide (r.Country = c))
    (c, listMean (g.map Row.CO2_Emissions_tons_per_capita),
        listMean (g.map Row.Avg_Temperature_degC),
        listMean (g.map (fun r => (r.Extreme_Weather_Events : ℚ))),
        listMean (g.map (fun r => (r.Population : ℚ)))))

/-- `latest_year` of `show_correlation` (src/app.py line 198): the
pandas max of the Year column; meaningful only on a non-empty view,
which is what the dispatcher guarantees. -/
def latest_year (rows : List Row) : Int :=
  match rows with
  | [] => 0
  | r :: rs => (rs.map Row.Year).foldl max r.Year

/-- `latest` of `show_correlation` (src/app.py line 199): the rows of
the view whose Year equals the maximal year. -/
def latest (rows : List Row) : List Row :=
  rows.filter (fun r => decide (r.Year = latest_year rows))

/-- `heatmap_data` of `show_temperature_heatmap` (src/app.py line 213):
per (Country, Year) group, the mean temperature. -/
def heatmap_data (rows : List Row) : List ((String × Int) × ℚ) :=
  ((rows.map (fun r => (r.Country, r.Year))).dedup).map
    (fun k => (k, listMean ((rows.filter
      (fun r => decide (r.Country = k.1) && decide (r.Year = k.2))).map
        Row.Avg_Temperature_degC)))

/-- One cell of the pivoted matrix (src/app.py line 214):
`heatmap_data.pivot` leaves a (Country, Year) combination with no
contributing rows as a missing value (pandas NaN), modelled as `none`. -/
def pivotCell (rows : List Row) (c : String) (y : Int) : Option ℚ :=
  List.lookup (c, y) (heatmap_data rows)

/-- The full pivoted country-by-year matrix of src/app.py line 214. -/
def pivot (rows : List Row) : List (String × List (Int × Option ℚ)) :=
  (countriesOf rows).map (fun c =>
    (c, (yearsOf rows).map (fun y => (y, pivotCell rows c y))))

/-- A rendered figure, tagged by chart kind and carrying the data it is
built from (src/app.py lines 144-222). -/
inductive Fig where
  | treemap (data : List (String × ℚ × ℚ × ℚ × ℚ))
  | trendPanels (data : List (Int × List (String × ℚ)))
  | scatter (data : List Row) (titleYear : Int)
  | heatmap (data : List (String × List (Int × Option ℚ)))
deriving DecidableEq

/-- src/app.py lines 144-160. -/
def show_treemap (rows : List Row) : Fig := Fig.treemap (treemap_data rows)

/-- src/app.py lines 163-194. -/
def show_trend_panels (rows : List Row) : Fig := Fig.trendPanels (yearly rows)

/-- src/app.py lines 197-209. -/
def show_correlation (rows : List Row) : Fig :=
  Fig.scatter (latest rows) (latest_year rows)

/-- src/app.py lines 212-218. -/
def show_temperature_heatmap (rows : List Row) : Fig := Fig.heatmap (pivot rows)

/-- src/app.py lines 221-222: the Renewable analysis just calls
`show_trend_panels`. -/
def show_renewable_analysis (rows : List Row) : Fig := show_trend_panels rows

/-- The five entries of the analysis-mode selectbox
(src/app.py lines 134-137). -/
inductive Mode where
  | Overview
  | Trends
  | Correlation
  | Temperature
  | Renewable
deriving DecidableEq

/-- What one run of the script displays: either the empty-data warning
or a list of figures. -/
inductive Output where
  | notice
  | figs (l : List Fig)
deriving DecidableEq

/-- The mode dispatch of src/app.py lines 229-246: an empty filtered
view shows the warning notice and nothing else; otherwise the selected
mode's figures are rendered. -/
def render (rows : List Row) (m : Mode) : Output :=
  if rows.length = 0 then Output.notice
  else Output.figs (match m with
    | Mode.Overview => [show_treemap rows, show_trend_panels rows]
    | Mode.Trends => [show_trend_panels rows]
    | Mode.Correlation => [show_correlation rows]
    | Mode.Temperature => [show_temperature_heatmap rows]
    | Mode.Renewable => [show_renewable_analysis rows])

/-- A CSV cell as typed by the tabular library when it writes and
re-reads a file.  Modelled from the spec: spec sections 1 and 6 delegate
the lexical CSV encoding to the tabular-data library, so the export is
modelled at the level of a header row plus one list of typed cells per
data row (`index=False`: no index column). -/
inductive Cell where
  | s (v : String)
  | i (v : Int)
  | q (v : ℚ)
deriving DecidableEq

/-- The header row written by `to_csv` (src/app.py line 104). -/
def headerCols : List String :=
  [colYear, colCountry, colTemp, colCO2, colRenew, colEvents, colPop]

/-- One data row as `to_csv` writes it: the seven cells in header
order. -/
def encodeRow (r : Row) : List Cell :=
  [Cell.i r.Year, Cell.s r.Country, Cell.q r.Avg_Temperature_degC,
   Cell.q r.CO2_Emissions_tons_per_capita, Cell.q r.Renewable_Energy_pct,
   Cell.i r.Extreme_Weather_Events, Cell.i r.Population]

/-- src/app.py lines 103-104: serialise the filtered view, header first,
then one cell row per data row, without an index column. -/
def to_csv (rows : List Row) : List String × List (List Cell) :=
  (headerCols, rows.map encodeRow)

/-- Decode one cell row back into a table row; fails on arity or cell
type mismatch. -/
def parseRow : List Cell → Option Row
  | [Cell.i y, Cell.s c, Cell.q t, Cell.q co, Cell.q re, Cell.i e, Cell.i p] =>
      some ⟨y, c, t, co, re, e, p⟩
  | _ => none

/-- Decode all data rows; fails as soon as one row fails. -/
def parseRows : List (List Cell) → Option (List Row)
  | [] => some []
  | l :: ls =>
    match parseRow l, parseRows ls with
    | some r, some rs => some (r :: rs)
    | _, _ => none

/-- Modelled from the spec: spec section 8 re-reads the exported CSV;
the reader checks the header and decodes every data row. -/
def read_csv (file : List String × List (List Cell)) : Option (List Row) :=
  if file.1 = headerCols then parseRows file.2 else none

/-- The state the script threads through a run: the cached source table
(src/app.py lines 14-18). -/
structure AppState where
  df : List Row
deriving DecidableEq

/-- Everything one run of the script produces. -/
structure Session where
  state : AppState
  filtered : List Row
  exported : List String × List (List Cell)
  displayed : Output
deriving DecidableEq

/-- One run of the whole script (src/app.py top to bottom): filter the
source, build the export of the filtered view, render by mode.  The
source table is only read, never reassigned. -/
def run_app (s : AppState) (f : Filters) (m : Mode) : Session :=
  let fd := filtered_df s.df f
  { state := s, filtered := fd, exported := to_csv fd, displayed := render fd m }

/-- The Year column as rationals, x-axis of the regressions. -/
def yearsQ (rows : List Row) : List ℚ := rows.map (fun r => (r.Year : ℚ))

/-- The temperature column. -/
def tempsOf (rows : List Row) : List ℚ := rows.map Row.Avg_Temperature_degC

/-- The renewable-share column. -/
def renewsOf (rows : List Row) : List ℚ := rows.map Row.Renewable_Energy_pct

/-- The extreme-events column as rationals. -/
def eventsQ (rows : List Row) : List ℚ :=
  rows.map (fun r => (r.Extreme_Weather_Events : ℚ))

/-- The CO2 column. -/
def co2Of (rows : List Row) : List ℚ :=
  rows.map Row.CO2_Emissions_tons_per_capita

/-- Centered cross moment of paired observations:
sum of (x - mean x) * (y - mean y). -/
def sxyOf (xs ys : List ℚ) : ℚ :=
  ((xs.zip ys).map (fun p => (p.1 - listMean xs) * (p.2 - listMean ys))).sum

/-- Centered second moment of the x coordinate of paired observations. -/
def sxxOf (xs ys : List ℚ) : ℚ :=
  ((xs.zip ys).map (fun p => (p.1 - listMean xs) ^ 2)).sum

/-- Centered second moment of the y coordinate of paired observations. -/
def syyOf (xs ys : List ℚ) : ℚ :=
  ((xs.zip ys).map (fun p => (p.2 - listMean ys) ^ 2)).sum

/-- The least-squares slope of y against x over paired observations. -/
def lsSlope (xs ys : List ℚ) : ℚ := sxyOf xs ys / sxxOf xs ys

/-- The sum of squared residuals of the line with slope `b` through the
means (the intercept that is optimal for any fixed slope). -/
def sseOf (xs ys : List ℚ) (b : ℚ) : ℚ :=
  ((xs.zip ys).map
    (fun p => ((p.2 - listMean ys) - b * (p.1 - listMean xs)) ^ 2)).sum

/-- Modelled from the spec: the trend-statistics ("insights") block is
in the repository's duplicate dashboard file, which is not under src/;
spec section 4 "Trend statistics" gives its contract.  The three
least-squares slopes against Year, and the three centered moments of
(CO2, temperature) that determine their Pearson correlation
r = sxy / sqrt(sxx * syy), kept in exact rational moment form. -/
structure TrendStats where
  temp_slope : ℚ
  renew_slope : ℚ
  events_slope : ℚ
  corr_sxy : ℚ
  corr_sxx : ℚ
  corr_syy : ℚ
deriving DecidableEq

/-- The statistics of spec section 4 over a (non-degenerate) view. -/
def computeTrendStats (rows : List Row) : TrendStats :=
  { temp_slope := lsSlope (yearsQ rows) (tempsOf rows),
    renew_slope := lsSlope (yearsQ rows) (renewsOf rows),
    events_slope := lsSlope (yearsQ rows) (eventsQ rows),
    corr_sxy := sxyOf (co2Of rows) (tempsOf rows),
    corr_sxx := sxxOf (co2Of rows) (tempsOf rows),
    corr_syy := syyOf (co2Of rows) (tempsOf rows) }

/-- Modelled from the spec: spec sections 4 and 8 — the slope and
correlation computations are performed for the filtered set and are
skipped entirely (no NaN, no division) when it has at most one row. -/
def trend_insights (rows : List Row) : Option TrendStats :=
  if rows.length ≤ 1 then none else some (computeTrendStats rows)

/-- A concrete row used by the witnesses. -/
def sampleRow : Row :=
  { Year := 2000, Country := "Atlantis", Avg_Temperature_degC := 15,
    CO2_Emissions_tons_per_capita := 4, Renewable_Energy_pct := 30,
    Extreme_Weather_Events := 2, Population := 1000 }

/-- A second concrete row, outside the sample bounds. -/
def sampleRow2 : Row :=
  { Year := 2050, Country := "Borduria", Avg_Temperature_degC := 25,
    CO2_Emissions_tons_per_capita := 14, Renewable_Energy_pct := 5,
    Extreme_Weather_Events := 9, Population := 2000 }

/-- Concrete filter bounds accepting `sampleRow` but not `sampleRow2`. -/
def sampleFilters : Filters :=
  { year_lo := 1990, year_hi := 2020, temp_lo := 0, temp_hi := 20,
    co2_lo := 0, co2_hi := 10, renew_lo := 0, renew_hi := 100,
    country_select := [allCountries] }

/-- Concrete bounds no row satisfies (the year window is empty). -/
def emptyFilters : Filters :=
  { year_lo := 1, year_hi := 0, temp_lo := 0, temp_hi := 100,
    co2_lo := 0, co2_hi := 100, renew_lo := 0, renew_hi := 100,
    country_select := [allCountries] }

/-- Country name used by the heatmap and aggregation witnesses. -/
def cA : String := "A"

/-- Second country name used by the heatmap and aggregation witnesses. -/
def cB : String := "B"

/-- Heatmap witness row: country A, year 2000. -/
def hmRowA : Row :=
  { Year := 2000, Country := cA, Avg_Temperature_degC := 10,
    CO2_Emissions_tons_per_capita := 3, Renewable_Energy_pct := 40,
    Extreme_Weather_Events := 1, Population := 1000 }

/-- Heatmap witness row: country B, year 2001. -/
def hmRowB : Row :=
  { Year := 2001, Country := cB, Avg_Temperature_degC := 20,
    CO2_Emissions_tons_per_capita := 6, Renewable_Energy_pct := 10,
    Extreme_Weather_Events := 4, Population := 2000 }

/-- A two-row view in which country A has no year-2001 observation. -/
def sampleH : List Row := [hmRowA, hmRowB]

/-- Helper lemmas about `List.lookup` over a keyed map, used for the
group-by developments. -/
theorem lookup_map_self {α β : Type} [BEq α] [LawfulBEq α]
    (keys : List α) (g : α → β) (y : α) (hy : y ∈ keys) :
    List.lookup y (keys.map (fun k => (k, g k))) = some (g y) := by
  induction keys with
  | nil => cases hy
  | cons k ks ih =>
    by_cases h : y = k
    · subst h
      simp [List.lookup]
    · have hk : (y == k) = false := beq_false_of_ne h
      have hy' : y ∈ ks := by
        cases hy with
        | head => exact absurd rfl h
        | tail _ hmem => exact hmem
      simp [List.lookup, hk, ih hy']

theorem lookup_map_self_none {α β : Type} [BEq α] [LawfulBEq α]
    (keys : List α) (g : α → β) (y : α) (hy : y ∉ keys) :
    List.lookup y (keys.map (fun k => (k, g k))) = none := by
  induction keys with
  | nil => rfl
  | cons k ks ih =>
    have h : y ≠ k := fun he => hy (he ▸ List.mem_cons_self k ks)
    have hk : (y == k) = false := beq_false_of_ne h
    have hy' : y ∉ ks := fun hmem => hy (List.mem_cons_of_mem k hmem)
    simp [List.lookup, hk, ih hy']

theorem mem_filtered_df (df : List Row) (f : Filters) (r : Row) :
    r ∈ filtered_df df f ↔
      r ∈ df
      ∧ (f.year_lo ≤ r.Year ∧ r.Year ≤ f.year_hi)
      ∧ (f.temp_lo ≤ r.Avg_Temperature_degC ∧ r.Avg_Temperature_degC ≤ f.temp_hi)
      ∧ (f.co2_lo ≤ r.CO2_Emissions_tons_per_capita
          ∧ r.CO2_Emissions_tons_per_capita ≤ f.co2_hi)
      ∧ (f.renew_lo ≤ r.Renewable_Energy_pct ∧ r.Renewable_Energy_pct ≤ f.renew_hi)
      ∧ (allCountries ∈ f.country_select ∨ r.Country ∈ f.country_select) := by
  unfold filtered_df rangePass
  by_cases h : allCountries ∈ f.country_select
  · simp [h, List.mem_filter, and_assoc]
  · simp [h, List.mem_filter, and_assoc]
    tauto

/-- C1: a row appears in the filtered view iff it is a source row, its
Year, temperature, CO2 and renewable values lie inside the respective
inclusive bounds, and its Country is in the selected set unless the
selected set contains the "All Countries" sentinel; consequently every
row of the filtered output satisfies each range predicate. -/
theorem filtered_df_spec (df : List Row) (f : Filters) :
    (∀ r : Row, r ∈ filtered_df df f ↔
      r ∈ df
      ∧ (f.year_lo ≤ r.Year ∧ r.Year ≤ f.year_hi)
      ∧ (f.temp_lo ≤ r.Avg_Temperature_degC ∧ r.Avg_Temperature_degC ≤ f.temp_hi)
      ∧ (f.co2_lo ≤ r.CO2_Emissions_tons_per_capita
          ∧ r.CO2_Emissions_tons_per_capita ≤ f.co2_hi)
      ∧ (f.renew_lo ≤ r.Renewable_Energy_pct ∧ r.Renewable_Energy_pct ≤ f.renew_hi)
      ∧ (allCountries ∈ f.country_select ∨ r.Country ∈ f.country_select))
    ∧ (∀ r ∈ filtered_df df f,
        f.year_lo ≤ r.Year ∧ r.Year ≤ f.year_hi
        ∧ f.temp_lo ≤ r.Avg_Temperature_degC ∧ r.Avg_Temperature_degC ≤ f.temp_hi
        ∧ f.co2_lo ≤ r.CO2_Emissions_tons_per_capita
        ∧ r.CO2_Emissions_tons_per_capita ≤ f.co2_hi
        ∧ f.renew_lo ≤ r.Renewable_Energy_pct
        ∧ r.Renewable_Energy_pct ≤ f.renew_hi) := by
  refine ⟨fun r => mem_filtered_df df f r, fun r hr => ?_⟩
  have h := (mem_filtered_df df f r).mp hr
  tauto

theorem filtered_df_spec_witness :
    sampleRow ∈ filtered_df [sampleRow, sampleRow2] sampleFilters
    ∧ (1990 : Int) ≤ sampleRow.Year := by
  have h := ((filtered_df_spec [sampleRow, sampleRow2] sampleFilters).1 sampleRow).mpr
    (by
      refine ⟨by simp, ?_, ?_, ?_, ?_, ?_⟩ <;>
        simp [sampleRow, sampleFilters, allCountries] <;> norm_num)
  exact ⟨h, by simp [sampleRow]⟩

/-- C4: filtering is idempotent — applying `filtered_df` with the same
bounds and country selection to an already-filtered list returns the
same list of rows. -/
theorem filtered_df_idempotent (df : List Row) (f : Filters) :
    filtered_df (filtered_df df f) f = filtered_df df f := by
  have hrange : ∀ r ∈ filtered_df df f, rangePass f r = true := by
    intro r hr
    have h := (mem_filtered_df df f r).mp hr
    unfold rangePass
    simp only [Bool.and_eq_true, decide_eq_true_eq]
    tauto
  by_cases h : allCountries ∈ f.country_select
  · have heq : ∀ l : List Row, filtered_df l f = l.filter (rangePass f) := by
      intro l; unfold filtered_df; simp [h]
    rw [heq (filtered_df df f)]
    exact List.filter_eq_self.mpr hrange
  · have hcountry : ∀ r ∈ filtered_df df f,
        (decide (r.Country ∈ f.country_select)) = true := by
      intro r hr
      have hmem := (mem_filtered_df df f r).mp hr
      rcases hmem.2.2.2.2.2 with hall | hc
      · exact absurd hall h
      · simpa using hc
    have heq : ∀ l : List Row, filtered_df l f =
        (l.filter (rangePass f)).filter
          (fun r => decide (r.Country ∈ f.country_select)) := by
      intro l; unfold filtered_df; simp [h]
    rw [heq (filtered_df df f), List.filter_eq_self.mpr hrange]
    exact List.filter_eq_self.mpr hcountry

theorem foldl_max_init_le (l : List Int) (a : Int) : a ≤ l.foldl max a := by
  induction l generalizing a with
  | nil => exact le_refl a
  | cons x xs ih => exact le_trans (le_max_left a x) (ih (max a x))

theorem le_foldl_max_of_mem (l : List Int) (a x : Int) (hx : x ∈ l) :
    x ≤ l.foldl max a := by
  induction l generalizing a with
  | nil => cases hx
  | cons y ys ih =>
    cases hx with
    | head => exact le_trans (le_max_right a x) (foldl_max_init_le ys (max a x))
    | tail _ h => exact ih (max a y) h

theorem foldl_max_mem (l : List Int) (a : Int) :
    l.foldl max a = a ∨ l.foldl max a ∈ l := by
  induction l generalizing a with
  | nil => exact Or.inl rfl
  | cons x xs ih =>
    rcases ih (max a x) with h | h
    · rcases max_choice a x with hm | hm
      · exact Or.inl (by rw [List.foldl_cons, h, hm])
      · exact Or.inr (by rw [List.foldl_cons, h, hm]; exact List.mem_cons_self x xs)
    · exact Or.inr (List.mem_cons_of_mem x h)

/-- C3: when the filtered result set is empty, the dispatcher renders
the warning notice and no figures, in every analysis mode; `render` is a
total function, so this path cannot fail. -/
theorem empty_filtered_notice (df : List Row) (f : Filters) (m : Mode)
    (h : (filtered_df df f).length = 0) :
    render (filtered_df df f) m = Output.notice
    ∧ ∀ l : List Fig, render (filtered_df df f) m ≠ Output.figs l := by
  constructor
  · unfold render; simp [h]
  · intro l; unfold render; simp [h]

theorem empty_filtered_notice_witness :
    render (filtered_df [sampleRow] emptyFilters) Mode.Overview = Output.notice :=
  (empty_filtered_notice [sampleRow] emptyFilters Mode.Overview (by decide)).1

/-- C10: selecting the Renewable analysis mode renders exactly the same
output as selecting the Trends mode, on every filtered set, because
`show_renewable_analysis` is definitionally `show_trend_panels`. -/
theorem renewable_mode_eq_trends (rows : List Row) :
    render rows Mode.Renewable = render rows Mode.Trends := rfl

theorem parseRow_encodeRow (r : Row) : parseRow (encodeRow r) = some r := rfl

theorem parseRows_map_encodeRow (v : List Row) :
    parseRows (v.map encodeRow) = some v := by
  induction v with
  | nil => rfl
  | cons r rs ih =>
    simp [parseRows, parseRow_encodeRow, ih]

/-- C5: the exported CSV of the filtered view, read back, yields exactly
the in-memory filtered view — the serialise-then-parse round trip is the
identity, so row count and every field value are preserved. -/
theorem export_round_trip (v : List Row) :
    read_csv (to_csv v) = some v ∧ (to_csv v).2.length = v.length := by
  constructor
  · unfold read_csv to_csv
    simp [parseRows_map_encodeRow]
  · simp [to_csv]

/-- C8: the loaded source table is immutable across a run — filtering
produces a derived view, and after filtering, aggregation and export the
source rows and field values are unchanged; moreover every row of the
derived view is literally a row of the source. -/
theorem run_app_source_immutable (s : AppState) (f : Filters) (m : Mode) :
    (run_app s f m).state = s
    ∧ (run_app s f m).state.df = s.df
    ∧ ∀ r ∈ (run_app s f m).filtered, r ∈ s.df := by
  refine ⟨rfl, rfl, fun r hr => ?_⟩
  have hr' : r ∈ filtered_df s.df f := hr
  exact ((mem_filtered_df s.df f r).mp hr').1

theorem run_app_source_immutable_witness :
    (run_app ⟨[sampleRow]⟩ sampleFilters Mode.Trends).state = ⟨[sampleRow]⟩
    ∧ sampleRow ∈ ([sampleRow] : List Row) := by
  refine ⟨(run_app_source_immutable ⟨[sampleRow]⟩ sampleFilters Mode.Trends).1, ?_⟩
  exact (run_app_source_immutable ⟨[sampleRow]⟩ sampleFilters Mode.Trends).2.2
    sampleRow (by decide)

/-- C9: in Correlation mode the scatter is built from `latest`, which
keeps exactly the rows whose Year equals the maximum Year present in the
filtered set — rows of all earlier years are excluded. -/
theorem show_correlation_spec (rows : List Row) (h : rows ≠ []) :
    (∀ r : Row, r ∈ latest rows ↔ r ∈ rows ∧ r.Year = latest_year rows)
    ∧ (∀ r ∈ rows, r.Year ≤ latest_year rows)
    ∧ (∃ r ∈ rows, r.Year = latest_year rows)
    ∧ show_correlation rows = Fig.scatter (latest rows) (latest_year rows) := by
  refine ⟨?_, ?_, ?_, rfl⟩
  · intro r
    simp [latest, List.mem_filter]
  · intro r hr
    match rows, h, hr with
    | r0 :: rs, _, hr =>
      rcases List.mem_cons.mp hr with he | hmem
      · rw [he]
        exact foldl_max_init_le (rs.map Row.Year) r0.Year
      · exact le_foldl_max_of_mem (rs.map Row.Year) r0.Year r.Year
          (List.mem_map_of_mem Row.Year hmem)
  · match rows, h with
    | r0 :: rs, _ =>
      rcases foldl_max_mem (rs.map Row.Year) r0.Year with he | he
      · exact ⟨r0, List.mem_cons_self r0 rs, he.symm⟩
      · rcases List.mem_map.mp he with ⟨r', hr', hy⟩
        exact ⟨r', List.mem_cons_of_mem r0 hr', hy⟩

theorem show_correlation_spec_witness :
    sampleRow2 ∈ latest [sampleRow, sampleRow2]
    ∧ sampleRow.Year ≤ latest_year [sampleRow, sampleRow2] := by
  have h := show_correlation_spec [sampleRow, sampleRow2] (by simp)
  refine ⟨(h.1 sampleRow2).mpr ⟨by simp, by decide⟩, ?_⟩
  exact h.2.1 sampleRow (by simp)

/-- C6 is false as stated: in `sampleH` country A and year 2001 both
occur in the filtered view, yet the pivoted matrix leaves the (A, 2001)
cell missing (pandas NaN, modelled `none`) — it is not filled with the
sentinel value zero. -/
theorem pivot_missing_cell_not_zero :
    cA ∈ countriesOf sampleH
    ∧ (2001 : Int) ∈ yearsOf sampleH
    ∧ pivotCell sampleH cA 2001 = none
    ∧ pivotCell sampleH cA 2001 ≠ some 0 := by decide

/-- C6 (amended): the heatmap matrix holds, for every (Country, Year)
pair, the mean temperature of the contributing filtered rows, and a pair
with no contributing rows is left as a missing cell (pandas NaN,
modelled `none`) rather than being filled with zero. -/
theorem pivotCell_spec (rows : List Row) (c : String) (y : Int) :
    (pivotCell rows c y = none ↔ ∀ r ∈ rows, ¬(r.Country = c ∧ r.Year = y))
    ∧ (∀ r ∈ rows, r.Country = c → r.Year = y →
        pivotCell rows c y = some (listMean ((rows.filter
          (fun r => decide (r.Country = c) && decide (r.Year = y))).map
            Row.Avg_Temperature_degC))) := by
  have hmem : (c, y) ∈ (rows.map (fun r => (r.Country, r.Year))).dedup ↔
      ∃ r ∈ rows, r.Country = c ∧ r.Year = y := by
    rw [List.mem_dedup, List.mem_map]
    constructor
    · rintro ⟨r, hr, he⟩
      exact ⟨r, hr, congrArg Prod.fst he, congrArg Prod.snd he⟩
    · rintro ⟨r, hr, hc, hy⟩
      exact ⟨r, hr, by rw [hc, hy]⟩
  by_cases hk : (c, y) ∈ (rows.map (fun r => (r.Country, r.Year))).dedup
  · have hp : pivotCell rows c y = some (listMean ((rows.filter
        (fun r => decide (r.Country = c) && decide (r.Year = y))).map
          Row.Avg_Temperature_degC)) := by
      unfold pivotCell heatmap_data
      exact lookup_map_self _ (fun k => listMean ((rows.filter
        (fun r => decide (r.Country = k.1) && decide (r.Year = k.2))).map
          Row.Avg_Temperature_degC)) (c, y) hk
    constructor
    · constructor
      · intro hnone
        rw [hp] at hnone
        cases hnone
      · intro hall
        rcases hmem.mp hk with ⟨r, hr, hcy⟩
        exact absurd hcy (hall r hr)
    · intro r _ _ _
      exact hp
  · have hn : pivotCell rows c y = none := by
      unfold pivotCell heatmap_data
      exact lookup_map_self_none _ (fun k => listMean ((rows.filter
        (fun r => decide (r.Country = k.1) && decide (r.Year = k.2))).map
          Row.Avg_Temperature_degC)) (c, y) hk
    constructor
    · constructor
      · intro _ r hr hcy
        exact hk (hmem.mpr ⟨r, hr, hcy⟩)
      · intro _
        exact hn
    · intro r hr hc hy
      exact absurd (hmem.mpr ⟨r, hr, hc, hy⟩) hk

theorem pivotCell_spec_witness :
    pivotCell sampleH cA 2000 = some (listMean ((sampleH.filter
      (fun r => decide (r.Country = cA) && decide (r.Year = (2000 : Int)))).map
        Row.Avg_Temperature_degC)) :=
  (pivotCell_spec sampleH cA 2000).2 hmRowA (by decide) rfl rfl

/-- C7 is false as stated: year 2000 is present in `sampleH`, but the
trend-panel aggregation computes no Population column for it — the
aggregation dictionary of src/app.py lines 164-169 omits Population, so
the claimed per-year Population mean (1000 for this input) is absent. -/
theorem trend_agg_omits_population :
    (2000 : Int) ∈ sampleH.map Row.Year
    ∧ (List.lookup (2000 : Int) (yearly sampleH)).bind
        (fun e => List.lookup colPop e) = none
    ∧ (List.lookup (2000 : Int) (yearly sampleH)).bind
        (fun e => List.lookup colPop e) ≠
      some (listMean ((sampleH.filter
        (fun r => decide (r.Year = (2000 : Int)))).map
          (fun r => (r.Population : ℚ)))) := by decide

/-- C7 (amended): for every Year present in the filtered set, the
trend-panel aggregation computes the arithmetic mean over that year's
rows of the four aggregated indicators — temperature, CO2, renewable
share and extreme events; Population is not among the aggregated
columns.  The aggregation has exactly one entry per distinct year. -/
theorem yearly_agg_spec (rows : List Row) (y : Int)
    (hy : y ∈ rows.map Row.Year) :
    List.lookup y (yearly rows) = some
      [(colTemp, listMean ((rows.filter
          (fun r => decide (r.Year = y))).map Row.Avg_Temperature_degC)),
       (colCO2, listMean ((rows.filter
          (fun r => decide (r.Year = y))).map Row.CO2_Emissions_tons_per_capita)),
       (colRenew, listMean ((rows.filter
          (fun r => decide (r.Year = y))).map Row.Renewable_Energy_pct)),
       (colEvents, listMean ((rows.filter
          (fun r => decide (r.Year = y))).map
            (fun r => (r.Extreme_Weather_Events : ℚ))))]
    ∧ (yearly rows).map Prod.fst = (rows.map Row.Year).dedup := by
  constructor
  · have hy' : y ∈ (rows.map Row.Year).dedup := List.mem_dedup.mpr hy
    unfold yearly yearsOf
    exact lookup_map_self _ (fun y => aggColumns.map (fun c =>
      (c.1, listMean ((rows.filter (fun r => decide (r.Year = y))).map c.2))))
      y hy'
  · unfold yearly yearsOf
    rw [List.map_map,
      show (Prod.fst ∘ fun y : Int =>
          (y, aggColumns.map (fun c =>
            (c.1, listMean ((rows.filter
              (fun r => decide (r.Year = y))).map c.2))))) = id from rfl,
      List.map_id]

theorem yearly_agg_spec_witness :
    List.lookup (2000 : Int) (yearly sampleH) ≠ none
    ∧ (yearly sampleH).map Prod.fst = (sampleH.map Row.Year).dedup := by
  have h := yearly_agg_spec sampleH 2000 (by decide)
  exact ⟨by rw [h.1]; simp, h.2⟩

theorem sse_expand (l : List (ℚ × ℚ)) (mx my b : ℚ) :
    (l.map (fun p => ((p.2 - my) - b * (p.1 - mx)) ^ 2)).sum
      = (l.map (fun p => (p.2 - my) ^ 2)).sum
        - 2 * b * (l.map (fun p => (p.1 - mx) * (p.2 - my))).sum
        + b ^ 2 * (l.map (fun p => (p.1 - mx) ^ 2)).sum := by
  induction l with
  | nil => simp
  | cons p ps ih =>
    simp only [List.map_cons, List.sum_cons, ih]
    ring

theorem sxxOf_nonneg (xs ys : List ℚ) : 0 ≤ sxxOf xs ys := by
  apply List.sum_nonneg
  intro x hx
  rcases List.mem_map.mp hx with ⟨p, _, rfl⟩
  positivity

theorem sseOf_eq (xs ys : List ℚ) (b : ℚ) :
    sseOf xs ys b
      = syyOf xs ys - 2 * b * sxyOf xs ys + b ^ 2 * sxxOf xs ys := by
  unfold sseOf syyOf sxyOf sxxOf
  exact sse_expand (xs.zip ys) (listMean xs) (listMean ys) b

theorem lsSlope_minimizes (xs ys : List ℚ) (h : sxxOf xs ys ≠ 0) (b : ℚ) :
    sseOf xs ys (lsSlope xs ys) ≤ sseOf xs ys b := by
  have hpos : 0 < sxxOf xs ys := lt_of_le_of_ne (sxxOf_nonneg xs ys) (Ne.symm h)
  have key : sseOf xs ys b - sseOf xs ys (lsSlope xs ys)
      = (b * sxxOf xs ys - sxyOf xs ys) ^ 2 / sxxOf xs ys := by
    rw [sseOf_eq, sseOf_eq]
    unfold lsSlope
    field_simp
    ring
  have hnn : 0 ≤ (b * sxxOf xs ys - sxyOf xs ys) ^ 2 / sxxOf xs ys :=
    div_nonneg (sq_nonneg _) (le_of_lt hpos)
  linarith [key, hnn]

/-- C2: the trend-statistics block computes, for the filtered set, the
least-squares slopes of temperature, renewable share and extreme events
against Year (each computed slope minimises the sum of squared
residuals whenever the years are not all equal), together with the
centered moments that determine the Pearson correlation of CO2 and
temperature; with at most one filtered row the whole computation is
skipped (`none`), never evaluated to NaN or divided by zero. -/
theorem trend_insights_spec (rows : List Row) :
    (rows.length ≤ 1 → trend_insights rows = none)
    ∧ (1 < rows.length → trend_insights rows = some (computeTrendStats rows))
    ∧ (sxxOf (yearsQ rows) (tempsOf rows) ≠ 0 → ∀ b : ℚ,
        sseOf (yearsQ rows) (tempsOf rows)
            (computeTrendStats rows).temp_slope
          ≤ sseOf (yearsQ rows) (tempsOf rows) b)
    ∧ (sxxOf (yearsQ rows) (renewsOf rows) ≠ 0 → ∀ b : ℚ,
        sseOf (yearsQ rows) (renewsOf rows)
            (computeTrendStats rows).renew_slope
          ≤ sseOf (yearsQ rows) (renewsOf rows) b)
    ∧ (sxxOf (yearsQ rows) (eventsQ rows) ≠ 0 → ∀ b : ℚ,
        sseOf (yearsQ rows) (eventsQ rows)
            (computeTrendStats rows).events_slope
          ≤ sseOf (yearsQ rows) (eventsQ rows) b) := by
  refine ⟨fun h => ?_, fun h => ?_,
    fun h b => lsSlope_minimizes _ _ h b,
    fun h b => lsSlope_minimizes _ _ h b,
    fun h b => lsSlope_minimizes _ _ h b⟩
  · unfold trend_insights
    simp [h]
  · have h' : ¬(rows.length ≤ 1) := by omega
    unfold trend_insights
    simp [h']

theorem trend_insights_spec_witness :
    trend_insights ([] : List Row) = none
    ∧ trend_insights sampleH = some (computeTrendStats sampleH)
    ∧ sseOf (yearsQ sampleH) (tempsOf sampleH)
        (computeTrendStats sampleH).temp_slope
      ≤ sseOf (yearsQ sampleH) (tempsOf sampleH) 0 := by
  have hx : sxxOf (yearsQ sampleH) (tempsOf sampleH) ≠ 0 := by
    norm_num [sxxOf, yearsQ, tempsOf, listMean, sampleH, hmRowA, hmRowB]
  exact ⟨(trend_insights_spec []).1 (by decide),
    (trend_insights_spec sampleH).2.1 (by decide),
    (trend_insights_spec sampleH).2.2.1 hx 0⟩

end Climate
